import Mathlib

/-!
# Verification of the rosapi RouterOS telnet client

A shallow embedding of `rosapi.py` over `List Char` strings.  Python's
chained `str.replace` calls, the `re.findall` patterns used by the
record extractors, the status-flag mapping, the failure-marker check and
the name-to-row-number lookup loops are modelled as executable Lean
functions, and the spec's claims about them are settled as theorems.
-/

namespace Rosapi

/-! ## Python `str.replace(old, "")` and the `untag` sanitizer -/

/-- Worker for `removeAll`.  The fuel only serves structural
termination; every call site keeps `fuel ≥ s.length`, and when the fuel
runs out the list is already empty. -/
def removeAllAux (pat : List Char) : Nat → List Char → List Char
  | _, [] => []
  | 0, s => s
  | Nat.succ fuel, c :: s =>
    if pat ≠ [] ∧ pat.isPrefixOf (c :: s) then
      removeAllAux pat fuel (s.drop (pat.length - 1))
    else
      c :: removeAllAux pat fuel s

/-- Python `text.replace(pat, "")`: delete every non-overlapping
occurrence of `pat`, scanning left to right.  (All patterns used by
`untag` are nonempty; an empty pattern deletes nothing here.) -/
def removeAll (pat s : List Char) : List Char :=
  removeAllAux pat s.length s

/-- `untag` from rosapi.py line 7-8: strip the six terminal control
sequences, one `replace` after the other, in source order. -/
def untag (text : List Char) : List Char :=
  removeAll ("\x1b[36m").data
    (removeAll ("\x1b[K").data
      (removeAll ("\x1b[31;1m").data
        (removeAll ("\x1b[1m").data
          (removeAll ("\x1b[32m").data
            (removeAll ("\x1b[m").data text)))))

/-- `pat` occurs as a contiguous substring of `s` (Python `pat in s`). -/
def occursIn (pat : List Char) : List Char → Bool
  | [] => pat.isEmpty
  | c :: s => pat.isPrefixOf (c :: s) || occursIn pat s

/-! ## A backtracking matcher for the source's `re.findall` patterns

The source uses a handful of regex constructs: literal text, greedy
`(.*)`, lazy `(.*?)`, `(\d+)`, `(\d)`, and the non-capturing
`(?:[\s\S]*)` / `(?:[\s\S]*?)` gap fillers.  `.` matches every
character except `'\n'`; `[\s\S]` matches every character.  Greedy
pieces try the longest split first, lazy pieces the shortest, exactly
as Python's backtracking engine does. -/

inductive Tok where
  /-- literal text -/
  | lit (s : List Char)
  /-- greedy capturing `(.*)` -/
  | star
  /-- lazy capturing `(.*?)` -/
  | starNG
  /-- greedy capturing `(\d+)` -/
  | digitsPlus
  /-- capturing `(\d)` -/
  | digit
  /-- greedy non-capturing `(?:[\s\S]*)` -/
  | anyStar
  /-- lazy non-capturing `(?:[\s\S]*?)` -/
  | anyStarNG
deriving DecidableEq

/-- All splits `(pre, suf)` of `s` with `pre` a run of characters
satisfying `p`, in ascending order of `pre` length. -/
def ascSplitsP (p : Char → Bool) : List Char → List (List Char × List Char)
  | [] => [([], [])]
  | c :: s =>
    ([], c :: s) ::
      (if p c then (ascSplitsP p s).map (fun q => (c :: q.1, q.2)) else [])

/-- First `some` produced by `f` over a list of candidates. -/
def firstSome {α β : Type} (f : α → Option β) : List α → Option β
  | [] => none
  | a :: as =>
    match f a with
    | some b => some b
    | none => firstSome f as

/-- Match a token list at the head of `s`, returning the captured
groups in order and the unconsumed rest. -/
def matchToks : List Tok → List Char → Option (List (List Char) × List Char)
  | [], s => some ([], s)
  | Tok.lit l :: ts, s =>
    if l.isPrefixOf s then matchToks ts (s.drop l.length) else none
  | Tok.star :: ts, s =>
    firstSome
      (fun pr => (matchToks ts pr.2).map (fun r => (pr.1 :: r.1, r.2)))
      ((ascSplitsP (fun c => c != '\n') s).reverse)
  | Tok.starNG :: ts, s =>
    firstSome
      (fun pr => (matchToks ts pr.2).map (fun r => (pr.1 :: r.1, r.2)))
      (ascSplitsP (fun c => c != '\n') s)
  | Tok.digitsPlus :: ts, s =>
    firstSome
      (fun pr => (matchToks ts pr.2).map (fun r => (pr.1 :: r.1, r.2)))
      (((ascSplitsP Char.isDigit s).drop 1).reverse)
  | Tok.digit :: ts, s =>
    match s with
    | [] => none
    | c :: s' =>
      if c.isDigit then
        (matchToks ts s').map (fun r => ([c] :: r.1, r.2))
      else none
  | Tok.anyStar :: ts, s =>
    firstSome (fun pr => matchToks ts pr.2)
      ((ascSplitsP (fun _ => true) s).reverse)
  | Tok.anyStarNG :: ts, s =>
    firstSome (fun pr => matchToks ts pr.2)
      (ascSplitsP (fun _ => true) s)

/-- `re.findall` scanning: try a match at each position from the left;
on success emit the captures and resume after the consumed text, else
advance one character.  Fuel bounds the scan by the input length. -/
def findallAux (toks : List Tok) : Nat → List Char → List (List (List Char))
  | 0, _ => []
  | Nat.succ fuel, s =>
    match matchToks toks s with
    | some (caps, rest) =>
      if rest.length < s.length then caps :: findallAux toks fuel rest
      else
        match s with
        | [] => [caps]
        | _ :: s' => caps :: findallAux toks fuel s'
    | none =>
      match s with
      | [] => []
      | _ :: s' => findallAux toks fuel s'

/-- `re.findall(pattern, s)` for a tokenised pattern. -/
def findall (toks : List Tok) (s : List Char) : List (List (List Char)) :=
  findallAux toks (s.length + 1) s

/-! ## Records

A record is the Python dict a collector loop builds: an association
list from field name to field value, in insertion order. -/

/-- One extracted record: field name to value, in insertion order. -/
abbrev Record := List (List Char × List Char)

/-- Python `record[key]` for the records built here (every key the
source reads is one the builder inserted, so the default is inert). -/
def lookupField (r : Record) (k : List Char) : List Char :=
  match r with
  | [] => []
  | (k', v) :: rest => if k' = k then v else lookupField rest k

/-! ## `ErrorHandler.check_result` (lines 74-80)

`re.findall("\r\n\r(.*)\n\r", result)`: at a match position the greedy
`(.*)` takes the maximal `'\n'`-free run, and the trailing `"\n\r"`
must follow it (a shorter capture would put a non-newline character
where `'\n'` is required, so the match is deterministic). -/

/-- Read the failure message at the head of `t`: the maximal
`'\n'`-free run, which must be followed by `'\n' :: '\r'`.  Returns
the message and the text after the `"\n\r"`. -/
def grabMsg : List Char → Option (List Char × List Char)
  | [] => none
  | c :: rest =>
    if c = '\n' then
      match rest with
      | [] => none
      | d :: t => if d = '\r' then some ([], t) else none
    else (grabMsg rest).map (fun p => (c :: p.1, p.2))

/-- Try the failure pattern `"\r\n\r(.*)\n\r"` anchored at the head. -/
def failAt : List Char → Option (List Char)
  | a :: b :: c :: rest =>
    if a = '\r' ∧ b = '\n' ∧ c = '\r' then (grabMsg rest).map Prod.fst
    else none
  | _ => none

/-- Leftmost match of the failure pattern (the `failure[0]` the source
reads). -/
def findFailure : List Char → Option (List Char)
  | [] => none
  | c :: s =>
    match failAt (c :: s) with
    | some msg => some msg
    | none => findFailure s

/-- Outcome of `check_result`: normal return (success log) or a raised
`RosError` with its message. -/
inductive CheckResult where
  | ok : CheckResult
  | rosError (msg : List Char) : CheckResult
deriving DecidableEq

/-- `ErrorHandler.check_result(where, result)`. -/
def check_result (wh result : List Char) : CheckResult :=
  match findFailure result with
  | some m => CheckResult.rosError (wh ++ (" Failed, ").data ++ m)
  | none => CheckResult.ok

/-! ## The extractors -/

/-- Pattern of `get_address_pool`: `name="(.*)" ranges=(.*) `. -/
def poolToks : List Tok :=
  [Tok.lit ("name=\"").data, Tok.star, Tok.lit ("\" ranges=").data,
   Tok.star, Tok.lit (" ").data]

/-- `AddressPool.get_address_pool` (lines 98-106) as a function of the
raw capture: `re.findall` over the untagged text, returned as
(name, ranges) pairs. -/
def get_address_pool (rc : List Char) : List (List Char × List Char) :=
  (findall poolToks (untag rc)).map (fun caps => (caps.getD 0 [], caps.getD 1 []))

/-- Pattern of `get_dhcp_server_client`:
`address=(.*) mac-address=(.*) (?:[\s\S]*)server=(.*) (?:[\s\S]*)host-name="(.*)" `. -/
def clientToks : List Tok :=
  [Tok.lit ("address=").data, Tok.star, Tok.lit (" mac-address=").data,
   Tok.star, Tok.lit (" ").data, Tok.anyStar, Tok.lit ("server=").data,
   Tok.star, Tok.lit (" ").data, Tok.anyStar,
   Tok.lit ("host-name=\"").data, Tok.star, Tok.lit ("\" ").data]

/-- The dict built for one DHCP lease tuple (lines 266-271). -/
def mkClientRecord (caps : List (List Char)) : Record :=
  [(("ip").data, caps.getD 0 []), (("mac").data, caps.getD 1 []),
   (("server").data, caps.getD 2 []), (("hostname").data, caps.getD 3 [])]

/-- `DHCPServer.get_dhcp_server_client` (lines 259-272). -/
def get_dhcp_server_client (rc : List Char) : List Record :=
  (findall clientToks (untag rc)).map mkClientRecord

/-- Pattern of `get_dhcp_server_network`:
`(\d) address=(.*?) gateway=(.*?) netmask=(.*?) (?:[\s\S]*)dns-server=(.*?) `. -/
def networkToks : List Tok :=
  [Tok.digit, Tok.lit (" address=").data, Tok.starNG,
   Tok.lit (" gateway=").data, Tok.starNG, Tok.lit (" netmask=").data,
   Tok.starNG, Tok.lit (" ").data, Tok.anyStar,
   Tok.lit ("dns-server=").data, Tok.starNG, Tok.lit (" ").data]

/-- The dict built for one DHCP network tuple (lines 288-293). -/
def mkNetworkRecord (caps : List (List Char)) : Record :=
  [(("num").data, caps.getD 0 []), (("address").data, caps.getD 1 []),
   (("gateway").data, caps.getD 2 []), (("netmask").data, caps.getD 3 []),
   (("dns_server").data, caps.getD 4 [])]

/-- `DHCPServer.get_dhcp_server_network` (lines 281-295). -/
def get_dhcp_server_network (rc : List Char) : List Record :=
  (findall networkToks (untag rc)).map mkNetworkRecord

/-- Status-flag mapping of `get_pppoe_server` (lines 463-470): `"X"`,
`"I"`, `"XI"` map to their states, every other flag falls through to
`"enabled"`. -/
def pppoeStatus (flag : List Char) : List Char :=
  if flag = ("X").data then ("disabled").data
  else if flag = ("I").data then ("invalid").data
  else if flag = ("XI").data then ("disabled and invalid").data
  else ("enabled").data

/-- Pattern of `get_pppoe_server`:
`(\d+) (.*?) (?:[\s\S]*?)service-name="(.*)" interface=(.*) max-mtu=(.*) max-mru=(.*) (?:[\s\S]*?)authentication=(.*?) (?:[\s\S]*?)default-profile=(.*) `. -/
def pppoeToks : List Tok :=
  [Tok.digitsPlus, Tok.lit (" ").data, Tok.starNG, Tok.lit (" ").data,
   Tok.anyStarNG, Tok.lit ("service-name=\"").data, Tok.star,
   Tok.lit ("\" interface=").data, Tok.star, Tok.lit (" max-mtu=").data,
   Tok.star, Tok.lit (" max-mru=").data, Tok.star, Tok.lit (" ").data,
   Tok.anyStarNG, Tok.lit ("authentication=").data, Tok.starNG,
   Tok.lit (" ").data, Tok.anyStarNG, Tok.lit ("default-profile=").data,
   Tok.star, Tok.lit (" ").data]

/-- The dict built for one PPPoE server tuple (lines 461-477). -/
def mkPPPoEServerRecord (caps : List (List Char)) : Record :=
  [(("num").data, caps.getD 0 []),
   (("status").data, pppoeStatus (caps.getD 1 [])),
   (("service_name").data, caps.getD 2 []),
   (("interface").data, caps.getD 3 []),
   (("max_mtu").data, caps.getD 4 []),
   (("max_mru").data, caps.getD 5 []),
   (("authentication").data, caps.getD 6 []),
   (("default_profile").data, caps.getD 7 [])]

/-- `PPPoEServer.get_pppoe_server` (lines 454-478). -/
def get_pppoe_server (rc : List Char) : List Record :=
  (findall pppoeToks (untag rc)).map mkPPPoEServerRecord

/-- Status-flag mapping of `get_ppp_secret` (lines 687-690): only
`"X"` maps to disabled, everything else falls through to enabled. -/
def secretStatus (flag : List Char) : List Char :=
  if flag = ("X").data then ("disabled").data else ("enabled").data

/-- Pattern of `get_ppp_secret`:
`(\d+) (.*?) name="(.*?)" service=(.*?) (?:[\s\S]*?)password="(.*)"(?:[\s\S]*?)profile=(.*?) `. -/
def secretToks : List Tok :=
  [Tok.digitsPlus, Tok.lit (" ").data, Tok.starNG,
   Tok.lit (" name=\"").data, Tok.starNG, Tok.lit ("\" service=").data,
   Tok.starNG, Tok.lit (" ").data, Tok.anyStarNG,
   Tok.lit ("password=\"").data, Tok.star, Tok.lit ("\"").data,
   Tok.anyStarNG, Tok.lit ("profile=").data, Tok.starNG,
   Tok.lit (" ").data]

/-- The dict built for one PPP secret tuple (lines 685-695). -/
def mkSecretRecord (caps : List (List Char)) : Record :=
  [(("num").data, caps.getD 0 []),
   (("status").data, secretStatus (caps.getD 1 [])),
   (("name").data, caps.getD 2 []),
   (("service").data, caps.getD 3 []),
   (("password").data, caps.getD 4 []),
   (("profile").data, caps.getD 5 [])]

/-- `PPPoEServer.get_ppp_secret` (lines 678-696). -/
def get_ppp_secret (rc : List Char) : List Record :=
  (findall secretToks (untag rc)).map mkSecretRecord

/-! ## Command builders and `add_*` result paths

The mutating operations format one command string, write it, sleep a
fixed half second, drain whatever bytes are available (possibly none)
and hand them to `check_result`.  Python's dynamically typed `num`
sentinel (`-1`, later possibly a row-number string) is `Sum Int
(List Char)`; `num == -1` is only true on the `Int` side, as in Python,
where a string never equals an int. -/

/-- `AddressPool.add_address_pool` (lines 108-119): the command written
and the outcome of `check_result("Add Pool", rc)` on the drained
response.  The drain is a single `read_very_eager` after a fixed sleep:
an empty response is processed like any other. -/
def add_address_pool (name ranges response : List Char) :
    List Char × CheckResult :=
  (("/ip pool add name=").data ++ name ++ (" ranges=").data ++ ranges,
   check_result (("Add Pool").data) response)

/-- Command of `DHCPServer.add_dhcp_server` (lines 182-186):
`enabled=True` becomes `disabled=no`. -/
def add_dhcp_server_cmd (name interface address_pool lease_time : List Char)
    (enabled : Bool) : List Char :=
  let e := if enabled then ("no").data else ("yes").data
  ("/ip dhcp-server add name=").data ++ name ++ (" interface=").data ++
    interface ++ (" address-pool=").data ++ address_pool ++
    (" lease-time=").data ++ lease_time ++ (" disabled=").data ++ e

/-- Command of `PPPoEServer.add_pppoe_server` (lines 541-544):
`enabled=True` becomes `disabled=yes` — the inverted branch. -/
def add_pppoe_server_cmd
    (service_name interface default_profile max_mtu max_mru : List Char)
    (enabled : Bool) : List Char :=
  let e := if enabled then ("yes").data else ("no").data
  ("/ interface pppoe-server server add service-name=").data ++
    service_name ++ (" interface=").data ++ interface ++
    (" default-profile=").data ++ default_profile ++
    (" max-mtu=").data ++ max_mtu ++ (" max-mru=").data ++ max_mru ++
    (" disabled=").data ++ e

/-- Command of `PPPoEServer.add_ppp_secret` (lines 710-714):
`enabled=True` becomes `disabled=no`. -/
def add_ppp_secret_cmd
    (secret_name service_name profile_name password : List Char)
    (enabled : Bool) : List Char :=
  let e := if enabled then ("no").data else ("yes").data
  ("/ppp secret add name=").data ++ secret_name ++ (" service=").data ++
    service_name ++ (" profile=").data ++ profile_name ++
    (" password=").data ++ password ++ (" disabled=").data ++ e

/-! ## Name-to-row-number lookups

Each helper extracts a record list, runs `num = -1`, overwrites `num`
with the `"num"` field of every record whose lookup field equals the
argument, and finally raises `RosError` when `num == -1` and returns
`num` otherwise.  The loop body is split out so the scan can be studied
on its own record list. -/

/-- Loop and final check of `get_dhcp_server_network_number`
(lines 326-335), on an already-extracted record list. -/
def dhcp_network_number_of_list (network_list : List Record)
    (address : List Char) : Except (List Char) (Sum Int (List Char)) :=
  let num := network_list.foldl
    (fun num network =>
      if lookupField network (("address").data) = address then
        Sum.inr (lookupField network (("num").data))
      else num)
    (Sum.inl (-1))
  if num = Sum.inl (-1 : Int) then
    Except.error
      (("No Matched DHCP Server Network Number for Address").data ++ address)
  else Except.ok num

/-- `DHCPServer.get_dhcp_server_network_number` (lines 313-335). -/
def get_dhcp_server_network_number (rc address : List Char) :
    Except (List Char) (Sum Int (List Char)) :=
  dhcp_network_number_of_list (get_dhcp_server_network rc) address

/-- Loop and final check of `get_pppoe_server_number` (lines 516-525),
on an already-extracted record list. -/
def pppoe_server_number_of_list (pppoe_server_list : List Record)
    (service_name : List Char) : Except (List Char) (Sum Int (List Char)) :=
  let num := pppoe_server_list.foldl
    (fun num pppoe_server =>
      if lookupField pppoe_server (("service_name").data) = service_name then
        Sum.inr (lookupField pppoe_server (("num").data))
      else num)
    (Sum.inl (-1))
  if num = Sum.inl (-1 : Int) then
    Except.error
      (("No Matched PPPoE Server Number for Service Name ").data ++
        service_name)
  else Except.ok num

/-- `PPPoEServer.get_pppoe_server_number` (lines 503-525). -/
def get_pppoe_server_number (rc service_name : List Char) :
    Except (List Char) (Sum Int (List Char)) :=
  pppoe_server_number_of_list (get_pppoe_server rc) service_name

/-- Loop and final check of `get_ppp_secret_number` (lines 746-755),
on an already-extracted record list. -/
def ppp_secret_number_of_list (secret_list : List Record)
    (secret_name : List Char) : Except (List Char) (Sum Int (List Char)) :=
  let num := secret_list.foldl
    (fun num secret =>
      if lookupField secret (("name").data) = secret_name then
        Sum.inr (lookupField secret (("num").data))
      else num)
    (Sum.inl (-1))
  if num = Sum.inl (-1 : Int) then
    Except.error
      (("No Matched PPP Secret Number for Secret Name ").data ++ secret_name)
  else Except.ok num

/-- `PPPoEServer.get_ppp_secret_number` (lines 733-755). -/
def get_ppp_secret_number (rc secret_name : List Char) :
    Except (List Char) (Sum Int (List Char)) :=
  ppp_secret_number_of_list (get_ppp_secret rc) secret_name

/-! ## `set_pppoe_server_dns` (lines 645-669) -/

/-- Where `set_pppoe_server_dns` ends up before the telnet write:
an unhandled Python `UnboundLocalError`/`NameError`, a raised
`RosError`, or the `/ppp profile set` command it writes. -/
inductive DnsOutcome where
  | nameErr : DnsOutcome
  | rosErr (msg : List Char) : DnsOutcome
  | cmd (c : List Char) : DnsOutcome
deriving DecidableEq

/-- `PPPoEServer.set_pppoe_server_dns` on the extracted server list.
The local `service_name` starts *unbound* (modelled `none`); the first
loop binds it on every record whose `"num"` equals `numbers`.  Reading
it while unbound — in the second loop's comparison when the list is
nonempty, or in the error-message format when the list is empty — is
the `NameError` outcome.  `if profile_name:` is Python truthiness, so
an empty-string profile also takes the error branch. -/
def set_pppoe_server_dns (servers : List Record)
    (numbers new_dns : List Char) : DnsOutcome :=
  let service_name : Option (List Char) := servers.foldl
    (fun sn server =>
      if lookupField server (("num").data) = numbers then
        some (lookupField server (("service_name").data))
      else sn)
    none
  match servers, service_name with
  | _ :: _, none => DnsOutcome.nameErr
  | svs, sn =>
    let profile_name : Option (List Char) := svs.foldl
      (fun pn server =>
        if some (lookupField server (("service_name").data)) = sn then
          some (lookupField server (("default_profile").data))
        else pn)
      none
    match profile_name with
    | some p =>
      if p ≠ [] then
        DnsOutcome.cmd
          (("/ppp profile set numbers=").data ++ p ++
            (" dns-server=").data ++ new_dns)
      else
        match sn with
        | some s =>
          DnsOutcome.rosErr
            (("No Matched PPPoE Server Profile for Service Name ").data ++ s)
        | none => DnsOutcome.nameErr
    | none =>
      match sn with
      | some s =>
        DnsOutcome.rosErr
          (("No Matched PPPoE Server Profile for Service Name ").data ++ s)
      | none => DnsOutcome.nameErr

/-! ## The failure marker, declaratively

`MarkerAt s i msg` says the failure-echo pattern
`"\r\n\r" ++ msg ++ "\n\r"` occurs in `s` starting at position `i`,
with `msg` free of newlines (the regex `.` cannot cross one). -/

/-- The failure marker occurs at position `i` of `s` with message
`msg`. -/
def MarkerAt (s : List Char) (i : Nat) (msg : List Char) : Prop :=
  '\n' ∉ msg ∧
    ∃ tail, s.drop i = '\r' :: '\n' :: '\r' :: (msg ++ '\n' :: '\r' :: tail)

lemma grabMsg_eq_some_iff :
    ∀ t msg tl, grabMsg t = some (msg, tl) ↔
      ('\n' ∉ msg ∧ t = msg ++ '\n' :: '\r' :: tl) := by
  intro t
  induction t with
  | nil =>
    intro msg tl
    constructor
    · intro h; exact absurd h (by simp [grabMsg])
    · rintro ⟨-, he⟩
      refine absurd (congrArg List.length he) ?_
      simp only [List.length_nil, List.length_append, List.length_cons]
      omega
  | cons c rest ih =>
    intro msg tl
    by_cases hc : c = '\n'
    · subst hc
      cases rest with
      | nil =>
        constructor
        · intro h; exact absurd h (by simp [grabMsg])
        · rintro ⟨hn, he⟩
          cases msg with
          | nil => exact absurd (List.tail_eq_of_cons_eq he) (by simp)
          | cons m ms =>
            have hm : '\n' = m := List.head_eq_of_cons_eq he
            exact absurd (hm ▸ List.mem_cons_self m ms) hn
      | cons d t =>
        by_cases hd : d = '\r'
        · subst hd
          have hg : grabMsg ('\n' :: '\r' :: t) = some ([], t) := by
            simp [grabMsg]
          constructor
          · intro h
            rw [hg] at h
            have hinj := Option.some_inj.mp h
            have hm : ([] : List Char) = msg := congrArg Prod.fst hinj
            have ht : t = tl := congrArg Prod.snd hinj
            subst ht
            exact ⟨by simp [← hm], by simp [← hm]⟩
          · rintro ⟨hn, he⟩
            cases msg with
            | nil =>
              have : t = tl := by simpa using he
              simp [grabMsg, this]
            | cons m ms =>
              have hm : '\n' = m := List.head_eq_of_cons_eq he
              exact absurd (hm ▸ List.mem_cons_self m ms) hn
        · constructor
          · intro h
            exact absurd h (by simp [grabMsg, hd])
          · rintro ⟨hn, he⟩
            cases msg with
            | nil =>
              have : d = '\r' := List.head_eq_of_cons_eq
                (List.tail_eq_of_cons_eq he)
              exact absurd this hd
            | cons m ms =>
              have hm : '\n' = m := List.head_eq_of_cons_eq he
              exact absurd (hm ▸ List.mem_cons_self m ms) hn
    · have hmap : grabMsg (c :: rest) =
          (grabMsg rest).map (fun p => (c :: p.1, p.2)) := by
        simp [grabMsg, hc]
      rw [hmap]
      constructor
      · intro h
        obtain ⟨p, hp, heq⟩ := Option.map_eq_some'.mp h
        obtain ⟨p1, p2⟩ := p
        have hmsg : c :: p1 = msg := congrArg Prod.fst heq
        have htl : p2 = tl := congrArg Prod.snd heq
        subst hmsg; subst htl
        obtain ⟨hn, hrest⟩ := (ih p1 p2).mp hp
        refine ⟨?_, by simp [hrest]⟩
        intro hmem
        rcases List.mem_cons.mp hmem with h' | h'
        · exact hc h'.symm
        · exact hn h'
      · rintro ⟨hn, he⟩
        cases msg with
        | nil => exact absurd (List.head_eq_of_cons_eq he) hc
        | cons m ms =>
          have hcm : c = m := List.head_eq_of_cons_eq he
          have hrest : rest = ms ++ '\n' :: '\r' :: tl :=
            List.tail_eq_of_cons_eq he
          have hn' : '\n' ∉ ms := fun h' => hn (List.mem_cons_of_mem _ h')
          refine Option.map_eq_some'.mpr ⟨(ms, tl), (ih ms tl).mpr ⟨hn', hrest⟩, ?_⟩
          simp [hcm]

lemma failAt_eq_some_iff (t msg : List Char) :
    failAt t = some msg ↔
      ('\n' ∉ msg ∧
        ∃ tl, t = '\r' :: '\n' :: '\r' :: (msg ++ '\n' :: '\r' :: tl)) := by
  rcases t with _ | ⟨a, _ | ⟨b, _ | ⟨c, rest⟩⟩⟩
  · constructor
    · intro h; exact absurd h (by simp [failAt])
    · rintro ⟨-, tl, he⟩; exact absurd (congrArg List.length he) (by simp)
  · constructor
    · intro h; exact absurd h (by simp [failAt])
    · rintro ⟨-, tl, he⟩; exact absurd (congrArg List.length he) (by simp)
  · constructor
    · intro h; exact absurd h (by simp [failAt])
    · rintro ⟨-, tl, he⟩
      exact absurd (congrArg List.length he) (by simp [List.length_append])
  · by_cases habc : a = '\r' ∧ b = '\n' ∧ c = '\r'
    · obtain ⟨ha, hb, hc⟩ := habc
      subst ha; subst hb; subst hc
      have hfa : failAt ('\r' :: '\n' :: '\r' :: rest) =
          (grabMsg rest).map Prod.fst := by
        simp [failAt]
      rw [hfa]
      constructor
      · intro h
        obtain ⟨⟨m, tl⟩, hp, heq⟩ := Option.map_eq_some'.mp h
        have hm : m = msg := heq
        subst hm
        have := (grabMsg_eq_some_iff rest m tl).mp hp
        exact ⟨this.1, tl, by simp [this.2]⟩
      · rintro ⟨hn, tl, he⟩
        have hrest : rest = msg ++ '\n' :: '\r' :: tl := by
          simpa using he
        exact Option.map_eq_some'.mpr
          ⟨(msg, tl), (grabMsg_eq_some_iff rest msg tl).mpr ⟨hn, hrest⟩, rfl⟩
    · constructor
      · intro h; exact absurd h (by simp [failAt, habc])
      · rintro ⟨-, tl, he⟩
        refine absurd ?_ habc
        refine ⟨List.head_eq_of_cons_eq he, ?_, ?_⟩
        · exact List.head_eq_of_cons_eq (List.tail_eq_of_cons_eq he)
        · exact List.head_eq_of_cons_eq
            (List.tail_eq_of_cons_eq (List.tail_eq_of_cons_eq he))

lemma markerAt_iff_failAt (s : List Char) (i : Nat) (msg : List Char) :
    MarkerAt s i msg ↔ failAt (s.drop i) = some msg := by
  rw [failAt_eq_some_iff, MarkerAt]

lemma findFailure_eq_none_iff (s : List Char) :
    findFailure s = none ↔ ∀ i, failAt (s.drop i) = none := by
  induction s with
  | nil =>
    constructor
    · intro _ i
      rw [List.drop_nil]
      rfl
    · intro _
      rfl
  | cons c s ih =>
    simp only [findFailure]
    cases h : failAt (c :: s) with
    | some m =>
      constructor
      · intro hc; exact absurd hc (by simp)
      · intro hall
        have h0 := hall 0
        rw [List.drop_zero, h] at h0
        exact absurd h0 (by simp)
    | none =>
      rw [ih]
      constructor
      · intro hall i
        cases i with
        | zero => simpa using h
        | succ j => simpa [List.drop_succ_cons] using hall j
      · intro hall j
        have := hall (j + 1)
        simpa [List.drop_succ_cons] using this

/-! ## Sanitizer lemmas -/

lemma removeAllAux_of_not_occurs (pat : List Char) :
    ∀ fuel s, occursIn pat s = false → removeAllAux pat fuel s = s := by
  intro fuel
  induction fuel with
  | zero =>
    intro s _
    cases s with
    | nil => rfl
    | cons c s => rfl
  | succ fuel ih =>
    intro s h
    cases s with
    | nil => rfl
    | cons c s =>
      have h' : (pat.isPrefixOf (c :: s) || occursIn pat s) = false := by
        simpa [occursIn] using h
      obtain ⟨hpre, hrec⟩ := Bool.or_eq_false_iff.mp h'
      have hcond : ¬(pat ≠ [] ∧ pat.isPrefixOf (c :: s) = true) := by
        rintro ⟨-, hp⟩
        rw [hpre] at hp
        exact Bool.false_ne_true hp
      calc removeAllAux pat (fuel + 1) (c :: s)
      _ = c :: removeAllAux pat fuel s := by
            simp only [removeAllAux, if_neg hcond]
      _ = c :: s := by rw [ih s hrec]

/-- Deleting a pattern that does not occur in the text is a no-op. -/
lemma removeAll_of_not_occurs (pat s : List Char)
    (h : occursIn pat s = false) : removeAll pat s = s :=
  removeAllAux_of_not_occurs pat s.length s h

/-! ## Linear-scan lemmas

The lookup loops all have the shape
`foldl (fun acc a => if P a then f a else acc) init`. -/

lemma foldl_if_no_match {α β : Type} (P : α → Prop) [DecidablePred P]
    (f : α → β) :
    ∀ (l : List α) (init : β), (∀ a ∈ l, ¬ P a) →
      l.foldl (fun acc a => if P a then f a else acc) init = init := by
  intro l
  induction l with
  | nil => intro init _; rfl
  | cons x xs ih =>
    intro init h
    rw [List.foldl_cons, if_neg (h x (List.mem_cons_self x xs))]
    exact ih init (fun a ha => h a (List.mem_cons_of_mem _ ha))

/-- The overwrite-on-every-match scan ends at the value of the last
match, i.e. the first match of the reversed list. -/
lemma foldl_if_last {α β : Type} (P : α → Prop) [DecidablePred P]
    (f : α → β) :
    ∀ (l : List α) (init : β) (r : α),
      l.reverse.find? (fun a => decide (P a)) = some r →
      l.foldl (fun acc a => if P a then f a else acc) init = f r := by
  intro l
  induction l with
  | nil =>
    intro init r h
    exact absurd h (by simp)
  | cons x xs ih =>
    intro init r h
    rw [List.reverse_cons, List.find?_append] at h
    rw [List.foldl_cons]
    cases hxs : xs.reverse.find? (fun a => decide (P a)) with
    | some r' =>
      rw [hxs] at h
      have hr : r' = r := by simpa [Option.or] using h
      exact ih _ r (hr ▸ hxs)
    | none =>
      rw [hxs] at h
      simp only [Option.or] at h
      by_cases hx : P x
      · have hr : x = r := by simpa [List.find?, hx] using h
        rw [if_pos hx]
        have hnone : ∀ a ∈ xs, ¬ P a := by
          intro a ha
          have := List.find?_eq_none.mp hxs a (List.mem_reverse.mpr ha)
          simpa using this
        rw [foldl_if_no_match P f xs (f x) hnone, hr]
      · exact absurd h (by simp [List.find?, hx])

/-- A list with a `P`-satisfying member has a first match in its
reverse, and that match satisfies `P` and belongs to the list. -/
lemma reverse_find?_of_exists {α : Type} (P : α → Prop) [DecidablePred P]
    (l : List α) (h : ∃ a ∈ l, P a) :
    ∃ r, l.reverse.find? (fun a => decide (P a)) = some r ∧ r ∈ l ∧ P r := by
  obtain ⟨a, ha, hpa⟩ := h
  cases hf : l.reverse.find? (fun a => decide (P a)) with
  | none =>
    have := List.find?_eq_none.mp hf a (List.mem_reverse.mpr ha)
    exact absurd hpa (by simpa using this)
  | some r =>
    refine ⟨r, rfl, ?_, ?_⟩
    · exact List.mem_reverse.mp (List.mem_of_find?_eq_some hf)
    · simpa using List.find?_some hf

lemma findFailure_eq_some_of_first (s : List Char) (i : Nat) (msg : List Char)
    (h : failAt (s.drop i) = some msg)
    (hmin : ∀ j, j < i → failAt (s.drop j) = none) :
    findFailure s = some msg := by
  induction s generalizing i with
  | nil =>
    rw [List.drop_nil] at h
    exact absurd h (by simp [failAt])
  | cons c s ih =>
    simp only [findFailure]
    cases i with
    | zero =>
      simp only [List.drop_zero] at h
      rw [h]
    | succ j =>
      have h0 : failAt (c :: s) = none := by
        simpa using hmin 0 (Nat.succ_pos j)
      rw [h0]
      refine ih j ?_ ?_
      · simpa [List.drop_succ_cons] using h
      · intro k hk
        have := hmin (k + 1) (Nat.succ_lt_succ hk)
        simpa [List.drop_succ_cons] using this

/-! ## Fixtures -/

/-- A pool `print detail` capture with the two address-pool lines of
the spec's fixture (each line carries the router's trailing space). -/
def poolFixture : List Char :=
  ("name=\"pppoe\" ranges=192.168.100.201-192.168.100.250 \r\nname=\"static\" ranges=192.168.2.1-192.168.2.100 \r\n").data

/-- A PPPoE server `print detail` capture with one disabled server. -/
def pppoeFixture : List Char :=
  ("0 X service-name=\"s1\" interface=e1 max-mtu=auto max-mru=auto authentication=pap default-profile=def \n").data

/-- The same capture with the unknown status-flag code `Z`. -/
def pppoeFixtureZ : List Char :=
  ("0 Z service-name=\"s1\" interface=e1 max-mtu=auto max-mru=auto authentication=pap default-profile=def \n").data

/-- A capture holding one PPPoE server line and one DHCP lease block. -/
def combinedFixture : List Char :=
  ("0 X service-name=\"s1\" interface=e1 max-mtu=auto max-mru=auto authentication=pap default-profile=def \naddress=1.2.3.4 mac-address=AA:BB \nserver=srv \nhost-name=\"pc\" \n").data

/-- A DHCP network `print detail` capture with one network. -/
def networkFixture : List Char :=
  ("0 address=10.0.0.0/8 gateway=10.0.0.1 netmask=255.0.0.0 dns-server=8.8.8.8 \n").data

/-- A PPP secret `print detail` capture with one disabled secret. -/
def secretFixture : List Char :=
  ("0 X name=\"u1\" service=pppoe password=\"pw\" profile=def \n").data

/-! ## Claims -/

/-- **C1, counterexample.**  The claim says extraction raises
`ParseMismatch` on a status-flag code outside `{"", "X", "I", "XI"}`.
On the code, extracting a server row whose flag is `"Z"` raises
nothing: the record comes back with its status silently set to
`"enabled"`. -/
theorem c1_unknown_flag_counterexample :
    get_pppoe_server pppoeFixtureZ =
      [[(("num").data, ("0").data),
        (("status").data, ("enabled").data),
        (("service_name").data, ("s1").data),
        (("interface").data, ("e1").data),
        (("max_mtu").data, ("auto").data),
        (("max_mru").data, ("auto").data),
        (("authentication").data, ("pap").data),
        (("default_profile").data, ("def").data)]] := by decide

/-- **C1, amended.**  The status-flag mapping is total over *all*
strings, with no error path: in `get_pppoe_server`, `"X"`, `"I"` and
`"XI"` map to their states and every other code (including `""`) falls
through to `"enabled"`; in `get_ppp_secret` only `"X"` maps to
`"disabled"` and every other code (including `"I"` and `"XI"`) falls
through to `"enabled"`.  No `ParseMismatch` exists in the source. -/
theorem c1_status_mapping_amended (flag : List Char)
    (h1 : flag ≠ ("X").data) (h2 : flag ≠ ("I").data)
    (h3 : flag ≠ ("XI").data) :
    pppoeStatus (("X").data) = ("disabled").data ∧
    pppoeStatus (("I").data) = ("invalid").data ∧
    pppoeStatus (("XI").data) = ("disabled and invalid").data ∧
    pppoeStatus flag = ("enabled").data ∧
    secretStatus (("X").data) = ("disabled").data ∧
    secretStatus (("I").data) = ("enabled").data ∧
    secretStatus (("XI").data) = ("enabled").data ∧
    secretStatus flag = ("enabled").data := by
  refine ⟨by decide, by decide, by decide, ?_, by decide, by decide,
    by decide, ?_⟩
  · simp [pppoeStatus, h1, h2, h3]
  · simp [secretStatus, h1]

/-- **C1, witness** for the amended mapping at the concrete unknown
code `"Z"`. -/
theorem c1_status_mapping_amended_witness :
    pppoeStatus (("Z").data) = ("enabled").data ∧
    secretStatus (("Z").data) = ("enabled").data := by
  have h := c1_status_mapping_amended (("Z").data)
    (by decide) (by decide) (by decide)
  exact ⟨h.2.2.2.1, h.2.2.2.2.2.2.2⟩

/-- **C2, counterexample.**  Sanitization is not idempotent: in
`"\x1b[" ++ "\x1b[32m" ++ "m"` the green-code removal splices the
surrounding bytes into a fresh `"\x1b[m"`, which only a second pass
removes. -/
theorem c2_sanitize_not_idempotent :
    untag (untag (("\x1b[\x1b[32mm").data)) ≠
      untag (("\x1b[\x1b[32mm").data) := by decide

/-- **C2, amended.**  Sanitization is a no-op — hence idempotent — on
any text containing none of the six control sequences; in general a
removal can splice adjacent bytes into a new control sequence, so
`untag (untag x) = untag x` does not hold for all `x`. -/
theorem c2_sanitize_noop_on_clean (s : List Char)
    (h1 : occursIn (("\x1b[m").data) s = false)
    (h2 : occursIn (("\x1b[32m").data) s = false)
    (h3 : occursIn (("\x1b[1m").data) s = false)
    (h4 : occursIn (("\x1b[31;1m").data) s = false)
    (h5 : occursIn (("\x1b[K").data) s = false)
    (h6 : occursIn (("\x1b[36m").data) s = false) :
    untag s = s ∧ untag (untag s) = untag s := by
  have hu : untag s = s := by
    unfold untag
    rw [removeAll_of_not_occurs _ _ h1, removeAll_of_not_occurs _ _ h2,
        removeAll_of_not_occurs _ _ h3, removeAll_of_not_occurs _ _ h4,
        removeAll_of_not_occurs _ _ h5, removeAll_of_not_occurs _ _ h6]
  exact ⟨hu, by rw [hu, hu]⟩

/-- **C2, witness** for the no-op theorem on clean text. -/
theorem c2_sanitize_noop_on_clean_witness :
    untag (("abc").data) = ("abc").data ∧
    untag (untag (("abc").data)) = untag (("abc").data) :=
  c2_sanitize_noop_on_clean (("abc").data) (by decide) (by decide)
    (by decide) (by decide) (by decide) (by decide)

/-- **C3.**  `check_result` raises iff the sanitized text contains the
failure marker `"\r\n\r" ++ msg ++ "\n\r"`: marker-free text returns
normally, and on a marked text the raised message is the one of the
first (leftmost) marker, wrapped as `where ++ " Failed, " ++ msg`. -/
theorem c3_check_result_iff_marker (wh s : List Char) (i : Nat)
    (msg : List Char) (hm : MarkerAt s i msg)
    (hfirst : ∀ j m', MarkerAt s j m' → i ≤ j) :
    (∀ t : List Char, (∀ j m', ¬ MarkerAt t j m') →
        check_result wh t = CheckResult.ok) ∧
    check_result wh s =
      CheckResult.rosError (wh ++ (" Failed, ").data ++ msg) := by
  constructor
  · intro t ht
    have hnone : findFailure t = none := by
      rw [findFailure_eq_none_iff]
      intro j
      cases hfa : failAt (t.drop j) with
      | none => rfl
      | some m =>
        exact absurd ((markerAt_iff_failAt t j m).mpr hfa) (ht j m)
    simp [check_result, hnone]
  · have hsome : findFailure s = some msg := by
      refine findFailure_eq_some_of_first s i msg
        ((markerAt_iff_failAt s i msg).mp hm) ?_
      intro j hj
      cases hfa : failAt (s.drop j) with
      | none => rfl
      | some m =>
        have := hfirst j m ((markerAt_iff_failAt s j m).mpr hfa)
        omega
    simp [check_result, hsome]

/-- **C3, witness**: the spec's `no such item` fixture raises with the
operation name and the captured message. -/
theorem c3_check_result_iff_marker_witness :
    check_result (("Add Pool").data) (("\r\n\rno such item\n\rok").data) =
      CheckResult.rosError
        ((("Add Pool").data) ++ (" Failed, ").data ++ ("no such item").data) :=
  (c3_check_result_iff_marker (("Add Pool").data)
    (("\r\n\rno such item\n\rok").data) 0 (("no such item").data)
    ⟨by decide, ("ok").data, by decide⟩
    (fun j _ _ => Nat.zero_le j)).2

/-- **C4.**  On the two-pool fixture, extraction returns exactly the
two (name, ranges) records, in source order, with the literal field
values of the spec. -/
theorem c4_pool_fixture_extraction :
    get_address_pool poolFixture =
      [(("pppoe").data, ("192.168.100.201-192.168.100.250").data),
       (("static").data, ("192.168.2.1-192.168.2.100").data)] := by decide

/-- **C5, counterexample.**  The claim says a harvest that receives no
bytes at all ends with `CommandTimeout` rather than returning
normally.  On the code, `add_address_pool` with an empty drained
response runs `check_result` on `""`, finds no failure marker, and
returns normally. -/
theorem c5_silent_peer_counterexample :
    (add_address_pool (("p1").data)
      (("192.168.2.1-192.168.2.100").data) []).2 = CheckResult.ok := by
  decide

/-- **C5, amended.**  The capture is a fixed half-second sleep
followed by one eager drain: there is no harvesting loop, no
quiescence window and no ceiling, and no timeout error exists.  The
only outcomes are a normal return or the failure-marker `RosError`;
in particular a completely silent peer (empty capture) completes
normally. -/
theorem c5_fixed_drain_amended (name ranges : List Char) :
    (∀ response,
      (add_address_pool name ranges response).2 = CheckResult.ok ∨
      ∃ m, (add_address_pool name ranges response).2 =
        CheckResult.rosError m) ∧
    (add_address_pool name ranges []).2 = CheckResult.ok := by
  constructor
  · intro response
    cases h : findFailure response with
    | none => exact Or.inl (by simp [add_address_pool, check_result, h])
    | some m =>
      exact Or.inr ⟨ (("Add Pool").data) ++ (" Failed, ").data ++ m,
        by simp [add_address_pool, check_result, h]⟩
  · rfl

/-! ### Lookup lemmas for the three name-to-number helpers -/

lemma dhcp_network_number_of_list_not_found (l : List Record)
    (a : List Char)
    (h : ∀ r ∈ l, lookupField r (("address").data) ≠ a) :
    dhcp_network_number_of_list l a =
      Except.error
        ((("No Matched DHCP Server Network Number for Address").data) ++ a) := by
  simp only [dhcp_network_number_of_list]
  rw [foldl_if_no_match (fun x => lookupField x (("address").data) = a)
    (fun x => Sum.inr (lookupField x (("num").data))) l (Sum.inl (-1)) h]
  simp

lemma dhcp_network_number_of_list_found (l : List Record) (a : List Char)
    (r : Record)
    (hf : l.reverse.find?
        (fun x => decide (lookupField x (("address").data) = a)) = some r) :
    dhcp_network_number_of_list l a =
      Except.ok (Sum.inr (lookupField r (("num").data))) := by
  simp only [dhcp_network_number_of_list]
  rw [foldl_if_last (fun x => lookupField x (("address").data) = a)
    (fun x => Sum.inr (lookupField x (("num").data))) l (Sum.inl (-1)) r hf]
  simp

lemma pppoe_server_number_of_list_not_found (l : List Record)
    (s : List Char)
    (h : ∀ r ∈ l, lookupField r (("service_name").data) ≠ s) :
    pppoe_server_number_of_list l s =
      Except.error
        ((("No Matched PPPoE Server Number for Service Name ").data) ++ s) := by
  simp only [pppoe_server_number_of_list]
  rw [foldl_if_no_match (fun x => lookupField x (("service_name").data) = s)
    (fun x => Sum.inr (lookupField x (("num").data))) l (Sum.inl (-1)) h]
  simp

lemma pppoe_server_number_of_list_found (l : List Record) (s : List Char)
    (r : Record)
    (hf : l.reverse.find?
        (fun x => decide (lookupField x (("service_name").data) = s)) = some r) :
    pppoe_server_number_of_list l s =
      Except.ok (Sum.inr (lookupField r (("num").data))) := by
  simp only [pppoe_server_number_of_list]
  rw [foldl_if_last (fun x => lookupField x (("service_name").data) = s)
    (fun x => Sum.inr (lookupField x (("num").data))) l (Sum.inl (-1)) r hf]
  simp

lemma ppp_secret_number_of_list_not_found (l : List Record)
    (n : List Char)
    (h : ∀ r ∈ l, lookupField r (("name").data) ≠ n) :
    ppp_secret_number_of_list l n =
      Except.error
        ((("No Matched PPP Secret Number for Secret Name ").data) ++ n) := by
  simp only [ppp_secret_number_of_list]
  rw [foldl_if_no_match (fun x => lookupField x (("name").data) = n)
    (fun x => Sum.inr (lookupField x (("num").data))) l (Sum.inl (-1)) h]
  simp

lemma ppp_secret_number_of_list_found (l : List Record) (n : List Char)
    (r : Record)
    (hf : l.reverse.find?
        (fun x => decide (lookupField x (("name").data) = n)) = some r) :
    ppp_secret_number_of_list l n =
      Except.ok (Sum.inr (lookupField r (("num").data))) := by
  simp only [ppp_secret_number_of_list]
  rw [foldl_if_last (fun x => lookupField x (("name").data) = n)
    (fun x => Sum.inr (lookupField x (("num").data))) l (Sum.inl (-1)) r hf]
  simp

/-- **C6.**  Each lookup helper raises its "not found" `RosError`
message exactly when the linear scan over the extracted records finds
no record whose lookup field equals the argument, and otherwise
returns the row number of a matching record. -/
theorem c6_lookup_not_found
    (rc₁ a₁ rc₂ a₂ rc₃ s₃ rc₄ s₄ rc₅ n₅ rc₆ n₆ : List Char)
    (h₁ : ∀ r ∈ get_dhcp_server_network rc₁,
      lookupField r (("address").data) ≠ a₁)
    (h₂ : ∃ r ∈ get_dhcp_server_network rc₂,
      lookupField r (("address").data) = a₂)
    (h₃ : ∀ r ∈ get_pppoe_server rc₃,
      lookupField r (("service_name").data) ≠ s₃)
    (h₄ : ∃ r ∈ get_pppoe_server rc₄,
      lookupField r (("service_name").data) = s₄)
    (h₅ : ∀ r ∈ get_ppp_secret rc₅, lookupField r (("name").data) ≠ n₅)
    (h₆ : ∃ r ∈ get_ppp_secret rc₆, lookupField r (("name").data) = n₆) :
    get_dhcp_server_network_number rc₁ a₁ =
      Except.error
        ((("No Matched DHCP Server Network Number for Address").data) ++ a₁) ∧
    (∃ r ∈ get_dhcp_server_network rc₂,
      lookupField r (("address").data) = a₂ ∧
      get_dhcp_server_network_number rc₂ a₂ =
        Except.ok (Sum.inr (lookupField r (("num").data)))) ∧
    get_pppoe_server_number rc₃ s₃ =
      Except.error
        ((("No Matched PPPoE Server Number for Service Name ").data) ++ s₃) ∧
    (∃ r ∈ get_pppoe_server rc₄,
      lookupField r (("service_name").data) = s₄ ∧
      get_pppoe_server_number rc₄ s₄ =
        Except.ok (Sum.inr (lookupField r (("num").data)))) ∧
    get_ppp_secret_number rc₅ n₅ =
      Except.error
        ((("No Matched PPP Secret Number for Secret Name ").data) ++ n₅) ∧
    (∃ r ∈ get_ppp_secret rc₆, lookupField r (("name").data) = n₆ ∧
      get_ppp_secret_number rc₆ n₆ =
        Except.ok (Sum.inr (lookupField r (("num").data)))) := by
  refine ⟨?_, ?_, ?_, ?_, ?_, ?_⟩
  · exact dhcp_network_number_of_list_not_found _ _ h₁
  · obtain ⟨r, hfind, hmem, hP⟩ := reverse_find?_of_exists
      (fun x => lookupField x (("address").data) = a₂) _ h₂
    exact ⟨r, hmem, hP, dhcp_network_number_of_list_found _ _ r hfind⟩
  · exact pppoe_server_number_of_list_not_found _ _ h₃
  · obtain ⟨r, hfind, hmem, hP⟩ := reverse_find?_of_exists
      (fun x => lookupField x (("service_name").data) = s₄) _ h₄
    exact ⟨r, hmem, hP, pppoe_server_number_of_list_found _ _ r hfind⟩
  · exact ppp_secret_number_of_list_not_found _ _ h₅
  · obtain ⟨r, hfind, hmem, hP⟩ := reverse_find?_of_exists
      (fun x => lookupField x (("name").data) = n₆) _ h₆
    exact ⟨r, hmem, hP, ppp_secret_number_of_list_found _ _ r hfind⟩

/-- **C6, witness**: empty captures extract no records, so every
lookup raises its message; on the one-record fixtures the matching
row number comes back. -/
theorem c6_lookup_not_found_witness :
    get_dhcp_server_network_number [] (("10.0.0.0/8").data) =
      Except.error
        ((("No Matched DHCP Server Network Number for Address").data) ++
          ("10.0.0.0/8").data) ∧
    (∃ r ∈ get_dhcp_server_network networkFixture,
      lookupField r (("address").data) = ("10.0.0.0/8").data ∧
      get_dhcp_server_network_number networkFixture (("10.0.0.0/8").data) =
        Except.ok (Sum.inr (lookupField r (("num").data)))) ∧
    get_pppoe_server_number [] (("s1").data) =
      Except.error
        ((("No Matched PPPoE Server Number for Service Name ").data) ++
          ("s1").data) ∧
    (∃ r ∈ get_pppoe_server pppoeFixture,
      lookupField r (("service_name").data) = ("s1").data ∧
      get_pppoe_server_number pppoeFixture (("s1").data) =
        Except.ok (Sum.inr (lookupField r (("num").data)))) ∧
    get_ppp_secret_number [] (("u1").data) =
      Except.error
        ((("No Matched PPP Secret Number for Secret Name ").data) ++
          ("u1").data) ∧
    (∃ r ∈ get_ppp_secret secretFixture,
      lookupField r (("name").data) = ("u1").data ∧
      get_ppp_secret_number secretFixture (("u1").data) =
        Except.ok (Sum.inr (lookupField r (("num").data)))) :=
  c6_lookup_not_found
    [] (("10.0.0.0/8").data) networkFixture (("10.0.0.0/8").data)
    [] (("s1").data) pppoeFixture (("s1").data)
    [] (("u1").data) secretFixture (("u1").data)
    (by decide) (by decide) (by decide) (by decide) (by decide) (by decide)

/-- **C7.**  Every record produced by one extraction call carries
exactly the schema's key list, in schema order: DHCP lease records
have keys ip, mac, server, hostname; PPPoE server records have keys
num, status, service_name, interface, max_mtu, max_mru,
authentication, default_profile. -/
theorem c7_uniform_key_sets (rc : List Char) (r₁ r₂ : Record)
    (h₁ : r₁ ∈ get_dhcp_server_client rc)
    (h₂ : r₂ ∈ get_pppoe_server rc) :
    r₁.map Prod.fst =
      [("ip").data, ("mac").data, ("server").data, ("hostname").data] ∧
    r₂.map Prod.fst =
      [("num").data, ("status").data, ("service_name").data,
       ("interface").data, ("max_mtu").data, ("max_mru").data,
       ("authentication").data, ("default_profile").data] := by
  constructor
  · obtain ⟨caps, -, rfl⟩ := List.mem_map.mp h₁
    rfl
  · obtain ⟨caps, -, rfl⟩ := List.mem_map.mp h₂
    rfl

/-- The DHCP lease record extracted from `combinedFixture`. -/
def clientRecW : Record :=
  [(("ip").data, ("1.2.3.4").data), (("mac").data, ("AA:BB").data),
   (("server").data, ("srv").data), (("hostname").data, ("pc").data)]

/-- The PPPoE server record extracted from `combinedFixture`. -/
def pppoeRecW : Record :=
  [(("num").data, ("0").data), (("status").data, ("disabled").data),
   (("service_name").data, ("s1").data), (("interface").data, ("e1").data),
   (("max_mtu").data, ("auto").data), (("max_mru").data, ("auto").data),
   (("authentication").data, ("pap").data),
   (("default_profile").data, ("def").data)]

set_option maxRecDepth 8000 in
/-- **C7, witness** on a capture yielding one record of each kind. -/
theorem c7_uniform_key_sets_witness :
    clientRecW.map Prod.fst =
      [("ip").data, ("mac").data, ("server").data, ("hostname").data] ∧
    pppoeRecW.map Prod.fst =
      [("num").data, ("status").data, ("service_name").data,
       ("interface").data, ("max_mtu").data, ("max_mru").data,
       ("authentication").data, ("default_profile").data] :=
  c7_uniform_key_sets combinedFixture clientRecW pppoeRecW
    (by decide) (by decide)

lemma append_marker_shift (pre e m : List Char)
    (he : (" ").data ++ m = (" disabled=").data ++ e) :
    pre ++ (" disabled=").data ++ e = (pre ++ (" ").data) ++ m := by
  rw [List.append_assoc, List.append_assoc, ← he]

/-- **C8.**  `add_pppoe_server` builds `disabled=yes` from
`enabled=True` and `disabled=no` from `enabled=False` — the inverse of
`add_dhcp_server` and `add_ppp_secret`, whose commands contain
`disabled=no` for `enabled=True`. -/
theorem c8_disabled_flag_inversion
    (service_name interface default_profile max_mtu max_mru : List Char)
    (name address_pool lease_time secret_name profile_name password :
      List Char) :
    (∃ p, add_pppoe_server_cmd service_name interface default_profile
        max_mtu max_mru true = p ++ ("disabled=yes").data) ∧
    (∃ p, add_pppoe_server_cmd service_name interface default_profile
        max_mtu max_mru false = p ++ ("disabled=no").data) ∧
    (∃ p, add_dhcp_server_cmd name interface address_pool lease_time
        true = p ++ ("disabled=no").data) ∧
    (∃ p, add_ppp_secret_cmd secret_name service_name profile_name
        password true = p ++ ("disabled=no").data) := by
  refine ⟨?_, ?_, ?_, ?_⟩
  · exact ⟨_, append_marker_shift
      (("/ interface pppoe-server server add service-name=").data ++
        service_name ++ (" interface=").data ++ interface ++
        (" default-profile=").data ++ default_profile ++
        (" max-mtu=").data ++ max_mtu ++ (" max-mru=").data ++ max_mru)
      (("yes").data) (("disabled=yes").data) (by decide)⟩
  · exact ⟨_, append_marker_shift
      (("/ interface pppoe-server server add service-name=").data ++
        service_name ++ (" interface=").data ++ interface ++
        (" default-profile=").data ++ default_profile ++
        (" max-mtu=").data ++ max_mtu ++ (" max-mru=").data ++ max_mru)
      (("no").data) (("disabled=no").data) (by decide)⟩
  · exact ⟨_, append_marker_shift
      (("/ip dhcp-server add name=").data ++ name ++
        (" interface=").data ++ interface ++ (" address-pool=").data ++
        address_pool ++ (" lease-time=").data ++ lease_time)
      (("no").data) (("disabled=no").data) (by decide)⟩
  · exact ⟨_, append_marker_shift
      (("/ppp secret add name=").data ++ secret_name ++
        (" service=").data ++ service_name ++ (" profile=").data ++
        profile_name ++ (" password=").data ++ password)
      (("no").data) (("disabled=no").data) (by decide)⟩

/-- **C9.**  Whenever the extracted server list has no record whose
`"num"` field equals the `numbers` argument, `set_pppoe_server_dns`
fails with Python's unbound-variable error on `service_name` — never
with a `RosError`: the second loop's comparison reads it when the list
is nonempty, and the error-message format reads it when the list is
empty. -/
theorem c9_unbound_service_name (servers : List Record)
    (numbers new_dns : List Char)
    (h : ∀ r ∈ servers, lookupField r (("num").data) ≠ numbers) :
    set_pppoe_server_dns servers numbers new_dns = DnsOutcome.nameErr := by
  cases servers with
  | nil => rfl
  | cons x xs =>
    have hsn : (x :: xs).foldl
        (fun sn server =>
          if lookupField server (("num").data) = numbers then
            some (lookupField server (("service_name").data))
          else sn)
        (none : Option (List Char)) = none :=
      foldl_if_no_match
        (fun server => lookupField server (("num").data) = numbers)
        (fun server => some (lookupField server (("service_name").data)))
        (x :: xs) none h
    simp only [set_pppoe_server_dns]
    rw [hsn]

/-- **C9, witness**: one extracted server row numbered `"0"`, looked
up with `numbers = "5"`. -/
theorem c9_unbound_service_name_witness :
    set_pppoe_server_dns
      [[(("num").data, ("0").data), (("service_name").data, ("s1").data),
        (("default_profile").data, ("def").data)]]
      (("5").data) (("8.8.8.8").data) = DnsOutcome.nameErr :=
  c9_unbound_service_name
    [[(("num").data, ("0").data), (("service_name").data, ("s1").data),
      (("default_profile").data, ("def").data)]]
    (("5").data) (("8.8.8.8").data) (by decide)

/-- **C10.**  When at least two records match the lookup key, each
scan loop keeps overwriting its result, so each helper returns the
row number of the last matching record (the first match of the
reversed list), not the first. -/
theorem c10_last_match_wins (l₁ l₂ l₃ : List Record) (a s n : List Char)
    (r₁ r₂ r₃ : Record)
    (h₁ : l₁.reverse.find?
      (fun x => decide (lookupField x (("address").data) = a)) = some r₁)
    (_hm₁ : 2 ≤ (l₁.filter
      (fun x => decide (lookupField x (("address").data) = a))).length)
    (h₂ : l₂.reverse.find?
      (fun x => decide (lookupField x (("service_name").data) = s)) = some r₂)
    (_hm₂ : 2 ≤ (l₂.filter
      (fun x => decide (lookupField x (("service_name").data) = s))).length)
    (h₃ : l₃.reverse.find?
      (fun x => decide (lookupField x (("name").data) = n)) = some r₃)
    (_hm₃ : 2 ≤ (l₃.filter
      (fun x => decide (lookupField x (("name").data) = n))).length) :
    dhcp_network_number_of_list l₁ a =
      Except.ok (Sum.inr (lookupField r₁ (("num").data))) ∧
    pppoe_server_number_of_list l₂ s =
      Except.ok (Sum.inr (lookupField r₂ (("num").data))) ∧
    ppp_secret_number_of_list l₃ n =
      Except.ok (Sum.inr (lookupField r₃ (("num").data))) :=
  ⟨dhcp_network_number_of_list_found l₁ a r₁ h₁,
   pppoe_server_number_of_list_found l₂ s r₂ h₂,
   ppp_secret_number_of_list_found l₃ n r₃ h₃⟩

/-- First of two records sharing every lookup key. -/
def dupRecA : Record :=
  [(("num").data, ("0").data), (("address").data, ("10.0.0.0/8").data),
   (("service_name").data, ("s1").data), (("name").data, ("u1").data)]

/-- Second of two records sharing every lookup key. -/
def dupRecB : Record :=
  [(("num").data, ("1").data), (("address").data, ("10.0.0.0/8").data),
   (("service_name").data, ("s1").data), (("name").data, ("u1").data)]

/-- **C10, witness**: two matching records; every helper returns the
second row number `"1"`. -/
theorem c10_last_match_wins_witness :
    dhcp_network_number_of_list [dupRecA, dupRecB] (("10.0.0.0/8").data) =
      Except.ok (Sum.inr (lookupField dupRecB (("num").data))) ∧
    pppoe_server_number_of_list [dupRecA, dupRecB] (("s1").data) =
      Except.ok (Sum.inr (lookupField dupRecB (("num").data))) ∧
    ppp_secret_number_of_list [dupRecA, dupRecB] (("u1").data) =
      Except.ok (Sum.inr (lookupField dupRecB (("num").data))) :=
  c10_last_match_wins [dupRecA, dupRecB] [dupRecA, dupRecB]
    [dupRecA, dupRecB] (("10.0.0.0/8").data) (("s1").data) (("u1").data)
    dupRecB dupRecB dupRecB
    (by decide) (by decide) (by decide) (by decide) (by decide) (by decide)

end Rosapi
